import Mathlib

/-!
Shallow embedding of the signal engine of `src/public.py` (NBA Edge Finder):
the price-spike tracker, game-state classifier, tolerance engine, confidence
scorer, bid recommendation engine, and the small parsing helpers they use.
Python dictionaries are modelled as association lists, `datetime` instants as
integer seconds, prices as integer cents (`Int`), and Python `None` as
`Option`.  Each definition mirrors the corresponding source function; the
theorems at the end of the file settle the specification claims.
-/

/-- Lookup in an association list, mirroring Python `d[k]` / `k in d`. -/
def assocGet {α : Type} (m : List (String × α)) (k : String) : Option α :=
  match m with
  | [] => none
  | (k', v) :: rest => if k' = k then some v else assocGet rest k

/-- Update or insert a key, mirroring Python `d[k] = v`. -/
def assocSet {α : Type} (m : List (String × α)) (k : String) (v : α) :
    List (String × α) :=
  match m with
  | [] => [(k, v)]
  | (k', v') :: rest =>
    if k' = k then (k, v) :: rest else (k', v') :: assocSet rest k v

/-- Is `p` an initial segment of `s`?  Helper for substring tests. -/
def leadsWith : List Char → List Char → Bool
  | _, [] => true
  | [], _ :: _ => false
  | a :: s, b :: p => a == b && leadsWith s p

/-- Does `p` occur as a contiguous sublist of `s`? -/
def hasSub : List Char → List Char → Bool
  | [], p => leadsWith [] p
  | a :: rest, p => leadsWith (a :: rest) p || hasSub rest p

/-- Python's substring test `pat in s`. -/
def strContains (s pat : String) : Bool :=
  hasSub s.toList pat.toList

/-- Python's `str.split(sep)` for a single-character separator. -/
def splitOnChar (c : Char) : List Char → List (List Char)
  | [] => [[]]
  | a :: rest =>
    let r := splitOnChar c rest
    if a = c then [] :: r
    else
      match r with
      | [] => [[a]]
      | h :: t => (a :: h) :: t

/-- Digit-string to number; `none` on the empty string or a non-digit. -/
def pyIntDigits (l : List Char) : Option Nat :=
  if l = [] then none
  else if l.all Char.isDigit then
    some (l.foldl (fun acc c => acc * 10 + (c.toNat - 48)) 0)
  else none

/-- Models Python `int(s)` on plain ASCII digit strings with an optional
leading minus sign. -/
def pyInt (l : List Char) : Option Int :=
  match l with
  | '-' :: rest => (pyIntDigits rest).map (fun n => -(n : Int))
  | _ => (pyIntDigits l).map (fun n => (n : Int))

/-- Models Python `int(float(s))` on plain decimal literals: the fractional
digits are truncated toward zero, so the value is the integer part. -/
def pyIntFloat (l : List Char) : Option Int :=
  match splitOnChar '.' l with
  | [a] => pyInt a
  | [a, b] =>
    if b.all Char.isDigit then
      match a, b with
      | [], [] => none
      | [], _ :: _ => some 0
      | ['-'], [] => none
      | ['-'], _ :: _ => some 0
      | _, _ => pyInt a
    else none
  | _ => none

/-- The clock parser embedded in `get_game_state` (src/public.py 247-252):
`mins, secs = clock.split(':'); int(mins) * 60 + int(float(secs))`, with every
failure (no colon, wrong number of parts, non-numeric part) collapsed to
`none` by the surrounding `try`. -/
def parseClockSecs (clock : String) : Option Int :=
  match splitOnChar ':' clock.toList with
  | [mins, secs] =>
    match pyInt mins, pyIntFloat secs with
    | some m, some s => some (m * 60 + s)
    | _, _ => none
  | _ => none

/-!  Price History Tracker (src/public.py 113-151).  Session state is the
pair of dictionaries `price_history` and `spike_alerts`; timestamps are
integer seconds. -/

structure TrackerState where
  price_history : List (String × List (Int × Int))
  spike_alerts : List (String × Bool)

/-- `record_price` (src/public.py 119-126): append `(now, price)`, then keep
only samples newer than `now - 120` seconds. -/
def record_price (s : TrackerState) (ticker : String) (price now : Int) :
    TrackerState :=
  let hist := (assocGet s.price_history ticker).getD []
  let hist := hist ++ [(now, price)]
  let hist := hist.filter (fun tp => decide (now - 120 < tp.1))
  TrackerState.mk (assocSet s.price_history ticker hist) s.spike_alerts

/-- `check_price_spike` (src/public.py 128-142): partition the stored history
at `now - window_seconds`, use the first old sample as baseline, and set the
sticky alert when the delta reaches the threshold. -/
def check_price_spike (s : TrackerState) (ticker : String)
    (current_price now threshold_cents window_seconds : Int) :
    Bool × Int × TrackerState :=
  match assocGet s.price_history ticker with
  | none => (false, 0, s)
  | some hist =>
    let old_prices := hist.filter (fun tp => decide (tp.1 ≤ now - window_seconds))
    match old_prices with
    | [] => (false, 0, s)
    | (_, p0) :: _ =>
      let delta := current_price - p0
      if threshold_cents ≤ delta then
        (true, delta,
          TrackerState.mk s.price_history (assocSet s.spike_alerts ticker true))
      else (false, delta, s)

/-- `is_spiked` (src/public.py 144-146): read the sticky flag, default false. -/
def is_spiked (s : TrackerState) (ticker : String) : Bool :=
  (assocGet s.spike_alerts ticker).getD false

/-- `clear_spike` (src/public.py 148-151): set the flag to false when the key
is present; history is untouched. -/
def clear_spike (s : TrackerState) (ticker : String) : TrackerState :=
  match assocGet s.spike_alerts ticker with
  | none => s
  | some _ => TrackerState.mk s.price_history (assocSet s.spike_alerts ticker false)

/-- One tracker interaction: a `record_price` or a `check_price_spike` call. -/
inductive TrackerOp where
  | record (ticker : String) (price now : Int)
  | check (ticker : String) (price now threshold window : Int)

/-- State reached after one tracker interaction. -/
def applyOp (s : TrackerState) : TrackerOp → TrackerState
  | TrackerOp.record t p n => record_price s t p n
  | TrackerOp.check t p n th w => (check_price_spike s t p n th w).2.2

/-- State reached after a sequence of tracker interactions. -/
def applyOps (s : TrackerState) : List TrackerOp → TrackerState
  | [] => s
  | op :: rest => applyOps (applyOp s op) rest

/-!  Game State Classifier (src/public.py 238-263). -/

/-- The live-score snapshot fields read by `get_game_state`. -/
structure LiveData where
  period : Int
  quarter : String
  clock : String
  total : Int
  status : String

/-- `get_game_state` (src/public.py 238-263): classify the snapshot into
`pregame`, `live_q1` or `post_q1`, with the early-lock flag computed under
`period == 1` and no `End` marker, clock-parse failures swallowed. -/
def get_game_state (live_data : Option LiveData) : String × Bool × Option Int :=
  match live_data with
  | none => ("pregame", false, none)
  | some d =>
    let q1_lock_imminent : Bool :=
      if d.period = 1 ∧ strContains d.quarter "End" = false then
        match parseClockSecs d.clock with
        | some total_secs => decide (total_secs ≤ 75 ∧ d.total < 50)
        | none => false
      else false
    if d.period = 0 ∨ d.status = "🟡 SCHEDULED" then ("pregame", false, none)
    else if d.period = 1 ∧ strContains d.quarter "End" = true then
      ("post_q1", false, some d.total)
    else if d.period = 1 then ("live_q1", q1_lock_imminent, some d.total)
    else if 1 < d.period then ("post_q1", false, some d.total)
    else ("pregame", false, none)

/-!  Bid Recommendation Engine (src/public.py 216-236). -/

/-- Python truthiness guard `q1_total and q1_total >= 55` used by the post-Q1
veto: `None` and `0` are falsy, so the veto fires only on a nonzero value
that is at least 55. -/
def q1_truthy_ge_55 (q1_total : Option Int) : Bool :=
  match q1_total with
  | some q => decide (q ≠ 0) && decide (55 ≤ q)
  | none => false

/-- `calculate_recommended_bid` (src/public.py 216-236). -/
def calculate_recommended_bid (no_ask : Int) (game_state : String)
    (q1_total : Option Int) (spiked q1_lock_imminent : Bool) :
    Option Int × String × String :=
  if spiked then
    (none, "🛑 DO NOT BID", "Market moved too fast — wait for cooldown")
  else if game_state = "pregame" then
    (some (max (no_ask - 10) 60), "Patient Pregame Bid",
      "Let price come to you — don't chase")
  else if game_state = "live_q1" ∧ q1_lock_imminent = true then
    (some (min (no_ask - 5) 75), "Early Live Bid",
      "Q1 lock-in forming — tighten if desired")
  else if game_state = "live_q1" then
    (some (max (no_ask - 8) 60), "Live Q1 Bid",
      "Waiting for Q1 end — park conservatively")
  else if game_state = "post_q1" then
    if q1_truthy_ge_55 q1_total then
      (none, "🚫 NO TRADE", "Q1 too high — skip this game")
    else if no_ask ≤ 75 then
      (none, "✅ ASK ACCEPTABLE", "Lift ask at " ++ toString no_ask ++ "¢ if desired")
    else
      (some (no_ask - 3), "Post-Q1 Value Bid",
        "Information edge confirmed — tight spread OK")
  else (some (max (no_ask - 10) 60), "Default Bid", "Conservative parking")

/-!  Tolerance Engine and Confidence Scorer (src/public.py 388-419). -/

/-- `get_price_tolerance` (src/public.py 388-393). -/
def get_price_tolerance (q1_total : Option Int) : Int × String :=
  match q1_total with
  | none => (68, "Pregame")
  | some q =>
    if q < 48 then (78, "Q1 < 48")
    else if q < 50 then (75, "Q1 48-49")
    else if q < 55 then (70, "Q1 50-54")
    else (0, "Q1 ≥ 55")

/-- A market row as built by `fetch_extreme_totals` (src/public.py 383),
restricted to the fields `calculate_confidence` reads. -/
structure Market where
  away_team : String
  home_team : String
  threshold : Int
  no_ask : Int

/-- Q1-regime points of `calculate_confidence` (src/public.py 403). -/
def q1_regime_pts (q : Int) : Int :=
  if q < 45 then 30 else if q < 48 then 27 else if q < 50 then 22 else 15

/-- Price-buffer points of `calculate_confidence` (src/public.py 409). -/
def price_buffer_pts (buffer : Int) : Int :=
  if 10 ≤ buffer then 20 else if 6 ≤ buffer then 15
  else if 3 ≤ buffer then 10 else 5

/-- Strike-threshold points of `calculate_confidence` (src/public.py 412). -/
def threshold_pts (threshold : Int) : Int :=
  if 252 ≤ threshold then 10 else if 250 ≤ threshold then 7
  else if 248 ≤ threshold then 5 else 3

/-- Spread/overtime-risk points of `calculate_confidence` (src/public.py 414). -/
def ot_risk_pts (spread_est : Int) : Int :=
  if 7 ≤ spread_est then 8 else if 5 ≤ spread_est then 5 else 2

/-- `calculate_confidence` (src/public.py 395-419): two red vetoes, a gray
deferral, then the additive score with its breakdown and verdict. -/
def calculate_confidence (m : Market) (q1_total : Option Int)
    (watchlist : List String) (spread_est : Int) :
    Int × String × String × List (String × String) :=
  if q1_total.isSome ∧ 55 ≤ q1_total.getD 0 then
    (0, "🚫 Q1 ≥ 55 - NO TRADE", "red", [("REJECTED", "Q1 too high")])
  else
    let tp := get_price_tolerance q1_total
    if q1_total.isSome ∧ tp.1 < m.no_ask then
      (0, "🚫 Price " ++ toString m.no_ask ++ "¢ > " ++ toString tp.1 ++
        "¢ for " ++ tp.2, "red", [("REJECTED", "Overpriced")])
    else
      match q1_total with
      | none => (0, "⏳ WAIT FOR Q1", "gray", [])
      | some q =>
        let q1_pts := q1_regime_pts q
        let watch_pts : Int :=
          if m.away_team ∈ watchlist ∨ m.home_team ∈ watchlist then 20 else 0
        let buffer := tp.1 - m.no_ask
        let price_pts := price_buffer_pts buffer
        let thr_pts := threshold_pts m.threshold
        let ot_pts := ot_risk_pts spread_est
        let score := q1_pts + watch_pts + price_pts + thr_pts + ot_pts
        let breakdown : List (String × String) :=
          [("Q1 Regime", toString q1_pts ++ "/30"),
           ("Watchlist",
             if m.away_team ∈ watchlist ∨ m.home_team ∈ watchlist then "✅ +20"
             else "❌ +0"),
           ("Price Buffer", toString price_pts ++ "/20"),
           ("Threshold", toString m.threshold),
           ("OT Risk", "Spread " ++ toString spread_est)]
        if 75 ≤ score then (score, "🚀 STRONG BET", "green", breakdown)
        else if 60 ≤ score then (score, "✅ GOOD BET", "green", breakdown)
        else if 45 ≤ score then (score, "🟡 MARGINAL", "yellow", breakdown)
        else (score, "⚠️ WEAK", "orange", breakdown)

/-!  Ticker parsing and the quote fallback (src/public.py 344-386). -/

/-- Python slice `s[a:b]` on a string (clamping, never failing). -/
def pySlice (s : String) (a b : Nat) : String :=
  String.mk ((s.toList.drop a).take (b - a))

/-- Python `str.upper()` (character-wise ASCII uppercase). -/
def pyUpper (s : String) : String :=
  String.mk (s.toList.map Char.toUpper)

/-- The month-code table of `parse_game_date` (src/public.py 349). -/
def month_codes : List (String × String) :=
  [("JAN", "01"), ("FEB", "02"), ("MAR", "03"), ("APR", "04"), ("MAY", "05"),
   ("JUN", "06"), ("JUL", "07"), ("AUG", "08"), ("SEP", "09"), ("OCT", "10"),
   ("NOV", "11"), ("DEC", "12")]

/-- `parse_game_date` (src/public.py 344-351): slices are total in Python and
the month lookup defaults to `"01"`, so the `except` branch (the `none`
result) is unreachable for string inputs. -/
def parse_game_date (game_code : String) : Option String :=
  let year := "20" ++ pySlice game_code 0 2
  let month_str := pyUpper (pySlice game_code 2 5)
  let day := pySlice game_code 5 7
  some (year ++ "-" ++ (assocGet month_codes month_str).getD "01" ++ "-" ++ day)

/-- The NO-ask fallback applied to each market record in
`fetch_extreme_totals` (src/public.py 380-382):
`if no_ask == 0 and yes_ask > 0: no_ask = 1 - yes_ask`. -/
def fetch_no_ask_fallback (yes_ask no_ask : Int) : Int :=
  if no_ask = 0 ∧ 0 < yes_ask then 1 - yes_ask else no_ask

/-!  Supporting lemmas about the association-list primitives and the spike
tracker, shared by the claim theorems below. -/

theorem assocGet_assocSet {α : Type} (m : List (String × α)) (k x : String) (v : α) :
    assocGet (assocSet m k v) x = if k = x then some v else assocGet m x := by
  induction m with
  | nil => simp [assocSet, assocGet]
  | cons a rest ih =>
    obtain ⟨k', v'⟩ := a
    simp only [assocSet]
    split_ifs with h1 h2 <;> simp_all [assocGet]

/-- Unfolded form of `check_price_spike`: the missing-key case and the
empty-history case coincide, so the function is the match on the filtered
history of the ticker. -/
theorem check_price_spike_eq (s : TrackerState) (t : String) (p now th w : Int) :
    check_price_spike s t p now th w =
      match ((assocGet s.price_history t).getD []).filter
          (fun tp => decide (tp.1 ≤ now - w)) with
      | [] => (false, 0, s)
      | (_, p0) :: _ =>
        if th ≤ p - p0 then
          (true, p - p0,
            TrackerState.mk s.price_history (assocSet s.spike_alerts t true))
        else (false, p - p0, s) := by
  unfold check_price_spike
  cases hg : assocGet s.price_history t <;> rfl

theorem check_spike_alerts (s : TrackerState) (t : String) (p now th w : Int) :
    (check_price_spike s t p now th w).2.2.spike_alerts = s.spike_alerts ∨
    (check_price_spike s t p now th w).2.2.spike_alerts =
      assocSet s.spike_alerts t true := by
  rw [check_price_spike_eq]
  cases hf : ((assocGet s.price_history t).getD []).filter
      (fun tp => decide (tp.1 ≤ now - w)) with
  | nil => left; rfl
  | cons a rest =>
    obtain ⟨t0, p0⟩ := a
    dsimp only
    split_ifs
    · right; rfl
    · left; rfl

theorem check_spike_triggered (s : TrackerState) (t : String) (p now th w : Int) :
    (check_price_spike s t p now th w).1 = true →
    (check_price_spike s t p now th w).2.2 =
      TrackerState.mk s.price_history (assocSet s.spike_alerts t true) := by
  rw [check_price_spike_eq]
  cases hf : ((assocGet s.price_history t).getD []).filter
      (fun tp => decide (tp.1 ≤ now - w)) with
  | nil => intro h; simp at h
  | cons a rest =>
    obtain ⟨t0, p0⟩ := a
    dsimp only
    split_ifs with hd
    · intro _; rfl
    · intro h; simp at h

theorem is_spiked_applyOp (s : TrackerState) (X : String) (op : TrackerOp)
    (h : is_spiked s X = true) : is_spiked (applyOp s op) X = true := by
  cases op with
  | record t p n => exact h
  | check t p n th w =>
    rcases check_spike_alerts s t p n th w with hc | hc
    · unfold is_spiked at h ⊢
      rw [show (applyOp s (TrackerOp.check t p n th w)) =
          (check_price_spike s t p n th w).2.2 from rfl, hc]
      exact h
    · unfold is_spiked at h ⊢
      rw [show (applyOp s (TrackerOp.check t p n th w)) =
          (check_price_spike s t p n th w).2.2 from rfl, hc, assocGet_assocSet]
      split_ifs with ht
      · rfl
      · exact h

theorem is_spiked_applyOps (X : String) (ops : List TrackerOp) :
    ∀ s : TrackerState, is_spiked s X = true →
      is_spiked (applyOps s ops) X = true := by
  induction ops with
  | nil => intro s h; exact h
  | cons op rest ih =>
    intro s h
    exact ih (applyOp s op) (is_spiked_applyOp s X op h)

theorem is_spiked_clear_spike (s : TrackerState) (X : String) :
    is_spiked (clear_spike s X) X = false := by
  unfold clear_spike is_spiked
  cases hg : assocGet s.spike_alerts X with
  | none => rw [hg]; rfl
  | some b => simp [assocGet_assocSet]

/-- C2: once `check_price_spike` triggers the alert for a ticker, `is_spiked`
stays true across every later sequence of `record_price` / `check_price_spike`
calls (any tickers, prices and times, including dropped prices and aged-out
history) until `clear_spike` is invoked for that ticker, and after
`clear_spike` the flag reads false. -/
theorem c2_spike_sticky (s : TrackerState) (X : String) (p now th w : Int)
    (htrig : (check_price_spike s X p now th w).1 = true) :
    (∀ ops : List TrackerOp,
      is_spiked (applyOps (check_price_spike s X p now th w).2.2 ops) X = true) ∧
    (∀ ops : List TrackerOp,
      is_spiked
        (clear_spike (applyOps (check_price_spike s X p now th w).2.2 ops) X) X
        = false) := by
  constructor
  · intro ops
    apply is_spiked_applyOps
    rw [check_spike_triggered s X p now th w htrig]
    unfold is_spiked
    rw [assocGet_assocSet]
    simp
  · intro ops
    exact is_spiked_clear_spike _ X

/-- Witness for C2 at a concrete tracker state: the spike stays set across a
later record and a later non-spiking check, and an explicit clear resets it. -/
theorem c2_spike_sticky_witness :
    is_spiked
      (applyOps
        (check_price_spike (TrackerState.mk [("T1", [((0 : Int), (60 : Int))])] [])
          "T1" 67 31 5 30).2.2
        [TrackerOp.record "T1" 50 40, TrackerOp.check "T1" 50 100 5 30]) "T1"
      = true ∧
    is_spiked
      (clear_spike
        (applyOps
          (check_price_spike (TrackerState.mk [("T1", [((0 : Int), (60 : Int))])] [])
            "T1" 67 31 5 30).2.2 []) "T1") "T1" = false := by
  have h := c2_spike_sticky (TrackerState.mk [("T1", [((0 : Int), (60 : Int))])] [])
      "T1" 67 31 5 30 (by decide)
  exact ⟨h.1 _, h.2 _⟩

/-- C3: `check_price_spike` partitions the stored history at
`now - windowSeconds`; with no old sample it returns `(false, 0)` and leaves
the state unchanged; otherwise the head of the old partition (the earliest
old sample, when the history is time-sorted) is the baseline, and the result
is `(true, delta)` with the sticky alert set when `delta ≥ threshold`, else
`(false, delta)` with the state unchanged. -/
theorem c3_check_spike_partitions (s : TrackerState) (ticker : String)
    (current now th w : Int) (hist : List (Int × Int))
    (hh : (assocGet s.price_history ticker).getD [] = hist)
    (hsort : hist.Pairwise (fun a b => a.1 ≤ b.1)) :
    (hist.filter (fun tp => decide (tp.1 ≤ now - w)) = [] →
      check_price_spike s ticker current now th w = (false, 0, s)) ∧
    (∀ t0 p0 rest,
      hist.filter (fun tp => decide (tp.1 ≤ now - w)) = (t0, p0) :: rest →
      (∀ tp ∈ hist.filter (fun tp => decide (tp.1 ≤ now - w)), t0 ≤ tp.1) ∧
      (th ≤ current - p0 →
        check_price_spike s ticker current now th w =
          (true, current - p0,
            TrackerState.mk s.price_history (assocSet s.spike_alerts ticker true)) ∧
        is_spiked (check_price_spike s ticker current now th w).2.2 ticker = true) ∧
      (current - p0 < th →
        check_price_spike s ticker current now th w = (false, current - p0, s))) := by
  have he := check_price_spike_eq s ticker current now th w
  rw [hh] at he
  constructor
  · intro h0
    rw [h0] at he
    exact he
  · intro t0 p0 rest hcons
    rw [hcons] at he
    have he2 : check_price_spike s ticker current now th w =
        if th ≤ current - p0 then
          (true, current - p0,
            TrackerState.mk s.price_history (assocSet s.spike_alerts ticker true))
        else (false, current - p0, s) := he
    refine ⟨?_, ?_, ?_⟩
    · have hpf : (hist.filter (fun tp => decide (tp.1 ≤ now - w))).Pairwise
          (fun a b => a.1 ≤ b.1) :=
        List.Pairwise.sublist (List.filter_sublist hist) hsort
      rw [hcons] at hpf
      rw [hcons]
      intro tp htp
      rcases List.mem_cons.mp htp with h | h
      · rw [h]
      · exact (List.pairwise_cons.mp hpf).1 tp h
    · intro hth
      rw [he2, if_pos hth]
      refine ⟨rfl, ?_⟩
      unfold is_spiked
      rw [assocGet_assocSet]
      simp
    · intro hlt
      rw [he2, if_neg (by omega)]

/-- Witness for C3 at a concrete state: a single old sample at time 0, window
30, check at time 31 with price 67 against baseline 60 triggers `(true, 7)`
and sets the alert. -/
theorem c3_check_spike_witness :
    check_price_spike (TrackerState.mk [("T1", [((0 : Int), (60 : Int))])] [])
        "T1" 67 31 5 30 =
      (true, 7,
        TrackerState.mk [("T1", [((0 : Int), (60 : Int))])] [("T1", true)]) := by
  have h := c3_check_spike_partitions
      (TrackerState.mk [("T1", [((0 : Int), (60 : Int))])] []) "T1" 67 31 5 30
      [((0 : Int), (60 : Int))] rfl (by simp)
  exact ((h.2 0 60 [] (by decide)).2.1 (by decide)).1

/-- C1: the claim says the derived NO ask is `100 - yesAsk` cents, but the
code's fallback is `1 - yes_ask` (a 0-1 probability-scale formula applied to
cents): at `yes_ask = 30, no_ask = 0` the stored value is `-29`, not `70`. -/
theorem c1_no_ask_fallback_unit_bug :
    fetch_no_ask_fallback 30 0 = -29 ∧ fetch_no_ask_fallback 30 0 ≠ 100 - 30 := by
  decide

/-- C4: whenever `q1Total` is present and at least 55, `calculate_confidence`
returns score 0 with severity red, for every market, watchlist and spread
estimate. -/
theorem c4_q1_veto (m : Market) (wl : List String) (spread q : Int)
    (hq : 55 ≤ q) :
    (calculate_confidence m (some q) wl spread).1 = 0 ∧
    (calculate_confidence m (some q) wl spread).2.2.1 = "red" := by
  unfold calculate_confidence
  rw [if_pos ⟨rfl, hq⟩]
  exact ⟨rfl, rfl⟩

/-- Witness for C4: a concrete market at `q1Total = 60` scores 0 / red. -/
theorem c4_q1_veto_witness :
    (calculate_confidence (Market.mk "A" "B" 250 70) (some 60) [] 5).1 = 0 ∧
    (calculate_confidence (Market.mk "A" "B" 250 70) (some 60) [] 5).2.2.1
      = "red" :=
  c4_q1_veto (Market.mk "A" "B" 250 70) [] 5 60 (by decide)

/-- Counterexample for C5 as stated: the code's label for the lowest band is
`"Q1 < 48"` (spaces around the comparator), not the claimed `"Q1<48"`. -/
theorem c5_label_counterexample :
    get_price_tolerance (some 40) ≠ (78, "Q1<48") := by decide

/-- C5 (amended): `get_price_tolerance` maps `none` to `(68, "Pregame")` and
integer inputs per the band table with the code's labels `"Q1 < 48"`,
`"Q1 48-49"`, `"Q1 50-54"`, `"Q1 ≥ 55"`; the bands cover every integer with
no overlap and the ceiling is non-increasing in `q1Total`. -/
theorem c5_tolerance_bands :
    get_price_tolerance none = (68, "Pregame") ∧
    (∀ q : Int, q < 48 → get_price_tolerance (some q) = (78, "Q1 < 48")) ∧
    (∀ q : Int, 48 ≤ q → q < 50 → get_price_tolerance (some q) = (75, "Q1 48-49")) ∧
    (∀ q : Int, 50 ≤ q → q < 55 → get_price_tolerance (some q) = (70, "Q1 50-54")) ∧
    (∀ q : Int, 55 ≤ q → get_price_tolerance (some q) = (0, "Q1 ≥ 55")) ∧
    (∀ q q' : Int, q ≤ q' →
      (get_price_tolerance (some q')).1 ≤ (get_price_tolerance (some q)).1) := by
  refine ⟨rfl, ?_, ?_, ?_, ?_, ?_⟩
  · intro q h
    unfold get_price_tolerance
    dsimp only
    rw [if_pos h]
  · intro q h1 h2
    unfold get_price_tolerance
    dsimp only
    rw [if_neg (by omega), if_pos h2]
  · intro q h1 h2
    unfold get_price_tolerance
    dsimp only
    rw [if_neg (by omega), if_neg (by omega), if_pos h2]
  · intro q h
    unfold get_price_tolerance
    dsimp only
    rw [if_neg (by omega), if_neg (by omega), if_neg (by omega)]
  · intro q q' h
    unfold get_price_tolerance
    dsimp only
    split_ifs <;> dsimp only <;> omega

/-- Witness for C5: the low band at a concrete input. -/
theorem c5_tolerance_bands_witness :
    get_price_tolerance (some 40) = (78, "Q1 < 48") :=
  c5_tolerance_bands.2.1 40 (by decide)

/-- Counterexample for C8 as stated: `parse_game_date` does not return null
on malformed input — a one-character code and an unrecognized month code both
yield strings (Python slicing is total and the month lookup defaults to
`"01"`). -/
theorem c8_counterexample :
    parse_game_date "X" = some "20X-01-" ∧
    parse_game_date "25XYZ14" = some "2025-01-14" := by decide

/-- C8 (amended): `parse_game_date` never returns null for string input; a
well-formed `YYMONDD` code parses to the expected ISO date, and malformed
codes yield non-null garbage strings (month defaulting to `"01"`) that the
caller's equality test against today's date then excludes. -/
theorem c8_never_null :
    (∀ code : String, (parse_game_date code).isSome = true) ∧
    parse_game_date "25JAN14" = some "2025-01-14" :=
  ⟨fun _ => rfl, by decide⟩

/-- C6: on a period-1 snapshot whose quarter label has no `End` marker and
that is not classified pregame, `get_game_state` returns `live_q1` with the
combined score as total, and the early-lock flag is true exactly when the
clock parses as MM:SS with at most 75 seconds remaining and the combined
score is under 50; a failed clock parse leaves the flag false (no error). -/
theorem c6_live_q1_lock (d : LiveData) (h1 : d.period = 1)
    (h2 : strContains d.quarter "End" = false)
    (h3 : d.status ≠ "🟡 SCHEDULED") :
    (get_game_state (some d)).1 = "live_q1" ∧
    (get_game_state (some d)).2.2 = some d.total ∧
    ((get_game_state (some d)).2.1 = true ↔
      ∃ sec, parseClockSecs d.clock = some sec ∧ sec ≤ 75 ∧ d.total < 50) ∧
    (parseClockSecs d.clock = none → (get_game_state (some d)).2.1 = false) := by
  have hng : ¬(d.period = 0 ∨ d.status = "🟡 SCHEDULED") := by
    rintro (h | h)
    · rw [h1] at h; exact absurd h (by decide)
    · exact h3 h
  have hne : ¬(d.period = 1 ∧ strContains d.quarter "End" = true) := by
    rintro ⟨_, hc⟩
    rw [h2] at hc
    exact absurd hc (by decide)
  simp only [get_game_state]
  rw [if_neg hng, if_neg hne, if_pos h1, if_pos ⟨h1, h2⟩]
  refine ⟨rfl, rfl, ?_, ?_⟩
  · cases hp : parseClockSecs d.clock with
    | none => simp [hp]
    | some ts => simp [hp]
  · intro hp
    simp [hp]

/-- Witness for C6: a live Q1 snapshot at clock 1:15 with combined score 40
classifies as `live_q1` with the early-lock flag true. -/
theorem c6_live_q1_lock_witness :
    (get_game_state (some (LiveData.mk 1 "Q1" "1:15" 40 "🟢 LIVE"))).1
      = "live_q1" ∧
    (get_game_state (some (LiveData.mk 1 "Q1" "1:15" 40 "🟢 LIVE"))).2.2
      = some 40 ∧
    ((get_game_state (some (LiveData.mk 1 "Q1" "1:15" 40 "🟢 LIVE"))).2.1 = true ↔
      ∃ sec, parseClockSecs "1:15" = some sec ∧ sec ≤ 75 ∧ (40 : Int) < 50) ∧
    (parseClockSecs "1:15" = none →
      (get_game_state (some (LiveData.mk 1 "Q1" "1:15" 40 "🟢 LIVE"))).2.1
        = false) :=
  c6_live_q1_lock (LiveData.mk 1 "Q1" "1:15" 40 "🟢 LIVE") rfl (by decide)
    (by decide)

/-- C7: for a fixed game state, q1 total and flags, `calculate_recommended_bid`
is non-decreasing in the NO ask: whenever both calls return a bid, the bid at
the lower ask is at most the bid at the higher ask. -/
theorem c7_bid_monotone (state : String) (q1 : Option Int) (sp lock : Bool)
    (a1 a2 b1 b2 : Int) (ha : a1 ≤ a2)
    (h1 : (calculate_recommended_bid a1 state q1 sp lock).1 = some b1)
    (h2 : (calculate_recommended_bid a2 state q1 sp lock).1 = some b2) :
    b1 ≤ b2 := by
  unfold calculate_recommended_bid at h1 h2
  split_ifs at h1 h2 <;> simp_all <;> omega

/-- Witness for C7 on the pregame branch: asks 70 and 80 give bids 60 and 70. -/
theorem c7_bid_monotone_witness :
    (calculate_recommended_bid 70 "pregame" none false false).1 = some 60 ∧
    (calculate_recommended_bid 80 "pregame" none false false).1 = some 70 ∧
    (60 : Int) ≤ 70 :=
  ⟨by decide, by decide,
    c7_bid_monotone "pregame" none false false 70 80 60 70 (by decide)
      (by decide) (by decide)⟩

/-- Counterexample for C9 as stated: on a non-veto path the breakdown entry
for the strike-threshold rule is the raw threshold (`"252"`), which does not
record the 10-point contribution the rule actually made. -/
theorem c9_threshold_entry_counterexample :
    assocGet
      (calculate_confidence (Market.mk "A" "B" 252 70) (some 40) [] 5).2.2.2
      "Threshold" = some "252" ∧
    threshold_pts 252 = 10 ∧
    strContains "252" "10" = false := by decide

/-- C9 (amended): on every non-veto scoring path the breakdown lists all five
rules in order; it records the exact point contribution for the Q1 regime,
watchlist and price-buffer rules (zero contributions included), but for the
strike-threshold and spread/overtime rules it records the raw input value
(threshold, spread estimate), not the points contributed. -/
theorem c9_breakdown_contents (m : Market) (wl : List String) (spread q : Int)
    (hq : q < 55) (hp : m.no_ask ≤ (get_price_tolerance (some q)).1) :
    (calculate_confidence m (some q) wl spread).2.2.2 =
      [("Q1 Regime", toString (q1_regime_pts q) ++ "/30"),
       ("Watchlist",
         if m.away_team ∈ wl ∨ m.home_team ∈ wl then "✅ +20" else "❌ +0"),
       ("Price Buffer",
         toString (price_buffer_pts ((get_price_tolerance (some q)).1 - m.no_ask))
           ++ "/20"),
       ("Threshold", toString m.threshold),
       ("OT Risk", "Spread " ++ toString spread)] := by
  unfold calculate_confidence
  rw [if_neg (by rintro ⟨_, h55⟩; rw [Option.getD_some] at h55; omega)]
  dsimp only
  rw [if_neg (by rintro ⟨_, hlt⟩; omega)]
  split_ifs <;> rfl

/-- Witness for C9 on a watchlist-hit non-veto market. -/
theorem c9_breakdown_witness :
    (calculate_confidence (Market.mk "H" "K" 250 72) (some 46) ["H"] 7).2.2.2 =
      [("Q1 Regime", toString (q1_regime_pts 46) ++ "/30"),
       ("Watchlist",
         if ("H" : String) ∈ (["H"] : List String) ∨
             ("K" : String) ∈ (["H"] : List String) then "✅ +20" else "❌ +0"),
       ("Price Buffer",
         toString (price_buffer_pts ((get_price_tolerance (some 46)).1 - 72))
           ++ "/20"),
       ("Threshold", toString (250 : Int)),
       ("OT Risk", "Spread " ++ toString (7 : Int))] :=
  c9_breakdown_contents (Market.mk "H" "K" 250 72) ["H"] 7 46 (by decide)
    (by decide)

/-- C10: in state `post_q1` with a null or zero `q1Total` (and no spike), the
NO-TRADE veto is never taken — the Python guard `q1_total and q1_total >= 55`
is falsy — and the result is the null-bid ASK-ACCEPTABLE outcome when
`noAsk ≤ 75`, else a bid of `noAsk - 3`; the function is total, so no error
is raised. -/
theorem c10_post_q1_no_veto (no_ask : Int) (q1 : Option Int) (lock : Bool)
    (hq : q1 = none ∨ q1 = some 0) :
    strContains (calculate_recommended_bid no_ask "post_q1" q1 false lock).2.1
      "NO TRADE" = false ∧
    (no_ask ≤ 75 →
      (calculate_recommended_bid no_ask "post_q1" q1 false lock).1 = none ∧
      strContains (calculate_recommended_bid no_ask "post_q1" q1 false lock).2.1
        "ASK ACCEPTABLE" = true) ∧
    (75 < no_ask →
      (calculate_recommended_bid no_ask "post_q1" q1 false lock).1
        = some (no_ask - 3)) := by
  have hn : q1_truthy_ge_55 q1 = false := by rcases hq with rfl | rfl <;> rfl
  unfold calculate_recommended_bid
  rw [if_neg (by decide), if_neg (by decide),
    if_neg (by rintro ⟨h, _⟩; exact absurd h (by decide)),
    if_neg (by decide), if_pos rfl, hn, if_neg (by decide)]
  by_cases hle : no_ask ≤ 75
  · rw [if_pos hle]
    exact ⟨rfl, fun _ => ⟨rfl, rfl⟩, fun hgt => absurd hle (by omega)⟩
  · rw [if_neg hle]
    exact ⟨rfl, fun hle2 => absurd hle2 hle, fun _ => rfl⟩

/-- Witness for C10 at ask 70 with q1Total null. -/
theorem c10_post_q1_no_veto_witness :
    strContains (calculate_recommended_bid 70 "post_q1" none false false).2.1
      "NO TRADE" = false ∧
    ((70 : Int) ≤ 75 →
      (calculate_recommended_bid 70 "post_q1" none false false).1 = none ∧
      strContains (calculate_recommended_bid 70 "post_q1" none false false).2.1
        "ASK ACCEPTABLE" = true) ∧
    (75 < (70 : Int) →
      (calculate_recommended_bid 70 "post_q1" none false false).1
        = some (70 - 3)) :=
  c10_post_q1_no_veto 70 none false (Or.inl rfl)
